import Mathlib

/-!
Verification of the merch-intel cloud setup tool.

This file gives a shallow embedding, in Lean, of the logic of the three
Python modules `cloud_data_transfer.py`, `cloud_bigquery.py` and
`cloud_env_setup.py`, and proves the behavioural properties claimed for
them.  External cloud services (the BigQuery Data Transfer service and
BigQuery itself) are modelled as explicit state records threaded through
the functions; their responses that the code merely consumes (run states,
listing order) are modelled as parameters.
-/

namespace MerchIntel

/-- `_SLEEP_SECONDS` in cloud_data_transfer.py: seconds slept between polls. -/
def SLEEP_SECONDS : Nat := 60

/-- `_MAX_POLL_COUNTER` in cloud_data_transfer.py. -/
def MAX_POLL_COUNTER : Nat := 100

/-- `_PENDING_STATE` in cloud_data_transfer.py. -/
def PENDING_STATE : Nat := 2

/-- `_RUNNING_STATE` in cloud_data_transfer.py. -/
def RUNNING_STATE : Nat := 3

/-- `_SUCCESS_STATE` in cloud_data_transfer.py. -/
def SUCCESS_STATE : Nat := 4

/-- `_FAILED_STATE` in cloud_data_transfer.py. -/
def FAILED_STATE : Nat := 5

/-- `_CANCELLED_STATE` in cloud_data_transfer.py. -/
def CANCELLED_STATE : Nat := 6

/-- A transfer run, as returned by `list_transfer_runs`: its lifecycle state
and its error payload (`error_status`). -/
structure TransferRun where
  state : Nat
  error_status : String
deriving DecidableEq

/-- Outcome of `wait_for_transfer_completion`: normal return, a
`DataTransferError` carrying the failed run's error payload, or the
`DataTransferError` raised when the poll counter reaches its ceiling. -/
inductive WaitOutcome where
  | completed
  | transferError (payload : String)
  | timeoutError
deriving DecidableEq

/-- Observable trace of one call of `wait_for_transfer_completion`: how many
times `list_transfer_runs` was polled, how many times `time.sleep` ran, and
how the call ended. -/
structure WaitTrace where
  polls : Nat
  sleeps : Nat
  outcome : WaitOutcome
deriving DecidableEq

/-- The `while True` loop of `wait_for_transfer_completion`
(cloud_data_transfer.py, lines 90-128).  `inspect i` is the first element of
the `list_transfer_runs` response at the i-th poll (`None` when the run list
is empty); `polls` and `sleeps` accumulate the trace; `poll_counter` is the
loop's counter, incremented after each sleep, with the loop raising once it
reaches `MAX_POLL_COUNTER`. -/
def wait_go (inspect : Nat → Option TransferRun)
    (idx polls sleeps poll_counter : Nat) : WaitTrace :=
  match inspect idx with
  | none => ⟨polls + 1, sleeps, .completed⟩
  | some run =>
    if run.state = SUCCESS_STATE then
      ⟨polls + 1, sleeps, .completed⟩
    else if run.state = FAILED_STATE ∨ run.state = CANCELLED_STATE then
      ⟨polls + 1, sleeps, .transferError run.error_status⟩
    else if MAX_POLL_COUNTER ≤ poll_counter + 1 then
      ⟨polls + 1, sleeps + 1, .timeoutError⟩
    else
      wait_go inspect (idx + 1) (polls + 1) (sleeps + 1) (poll_counter + 1)
termination_by MAX_POLL_COUNTER - poll_counter
decreasing_by
  simp only [MAX_POLL_COUNTER] at *
  omega

/-- `wait_for_transfer_completion` (cloud_data_transfer.py, lines 71-128)
with `poll_counter` starting at 0. -/
def wait_for_transfer_completion (inspect : Nat → Option TransferRun) :
    WaitTrace :=
  wait_go inspect 0 0 0 0

/-- The run-state sequence `[RUNNING, RUNNING, SUCCEEDED]` used by the
poller-termination scenario: the i-th poll observes the i-th state. -/
def runSeqRRS : Nat → Option TransferRun := fun i =>
  [(⟨RUNNING_STATE, ""⟩ : TransferRun),
   ⟨RUNNING_STATE, ""⟩, ⟨SUCCESS_STATE, ""⟩].get? i

/-- `_MERCHANT_CENTER_ID` in cloud_data_transfer.py. -/
def MERCHANT_CENTER_ID : String := "merchant_center"

/-- A protobuf `Struct` value as used in the transfer parameter mappings of
this code base: a string or a boolean. -/
inductive PValue where
  | s (v : String)
  | b (v : Bool)
deriving DecidableEq

/-- A transfer configuration (`bigquery_datatransfer.TransferConfig`): the
fields this code base reads or writes.  `name` is the server-assigned
resource name identifying the config. -/
structure TransferConfig where
  name : String
  data_source_id : String
  destination_dataset_id : String
  display_name : String
  params : List (String × PValue)
  state : Nat
  schedule : String
  data_refresh_window_days : Nat
deriving DecidableEq

/-- Key lookup in a `Struct`-style parameter mapping
(`config_params[key]`, first binding wins). -/
def lookupParam (ps : List (String × PValue)) (k : String) : Option PValue :=
  (ps.find? (fun p => decide (p.1 = k))).map Prod.snd

/-- `_check_params_match` (cloud_data_transfer.py, lines 174-194): vacuously
true when `params` is empty (Python `if not params`); otherwise every
requested key must be present in the config's parameters with an equal
value (`key not in config_params or config_params[key] != value`). -/
def check_params_match (transfer_config : TransferConfig)
    (params : List (String × PValue)) : Bool :=
  if params.isEmpty then true
  else params.all (fun kv =>
    decide (lookupParam transfer_config.params kv.1 = some kv.2))

/-- The `destination_dataset_id and transfer_config.destination_dataset_id
!= destination_dataset_id` guard of `_get_existing_transfer`; `none` models
the falsy Python `None` default. -/
def dest_mismatch (destination_dataset_id : Option String)
    (tc : TransferConfig) : Bool :=
  match destination_dataset_id with
  | some d => decide (tc.destination_dataset_id ≠ d)
  | none => false

/-- The `name is None or name == transfer_config.display_name` guard of
`_get_existing_transfer`. -/
def name_match (name : Option String) (tc : TransferConfig) : Bool :=
  match name with
  | none => true
  | some n => decide (n = tc.display_name)

/-- The `transfer_config.state in (_PENDING_STATE, _RUNNING_STATE,
_SUCCESS_STATE)` guard of `_get_existing_transfer`. -/
def valid_reuse_state (s : Nat) : Bool :=
  decide (s = PENDING_STATE) || decide (s = RUNNING_STATE) ||
    decide (s = SUCCESS_STATE)

/-- `_get_existing_transfer` (cloud_data_transfer.py, lines 130-172) over
the transfer configs listed under the project/location parent, in listing
order.  `params = []` models the falsy `params=None` default. -/
def get_existing_transfer (configs : List TransferConfig)
    (data_source_id : String) (destination_dataset_id : Option String)
    (params : List (String × PValue)) (name : Option String) :
    Option TransferConfig :=
  match configs with
  | [] => none
  | tc :: rest =>
    if tc.data_source_id ≠ data_source_id then
      get_existing_transfer rest data_source_id destination_dataset_id params name
    else if dest_mismatch destination_dataset_id tc then
      get_existing_transfer rest data_source_id destination_dataset_id params name
    else if check_params_match tc params && valid_reuse_state tc.state &&
        name_match name tc then
      some tc
    else
      get_existing_transfer rest data_source_id destination_dataset_id params name

/-- The per-config condition under which the loop of
`_get_existing_transfer` returns a config. -/
def matches_transfer (data_source_id : String)
    (destination_dataset_id : Option String)
    (params : List (String × PValue)) (name : Option String)
    (tc : TransferConfig) : Bool :=
  decide (tc.data_source_id = data_source_id) &&
  !dest_mismatch destination_dataset_id tc &&
  (check_params_match tc params && valid_reuse_state tc.state &&
   name_match name tc)

/-- State of the BigQuery Data Transfer service client, as this code
observes it: the configs under the single project/location parent in
listing order, a counter from which the service mints fresh resource
names, the lifecycle state the service assigns to a newly created config,
the `check_valid_creds` answer, and the requests this code has issued so
far (update requests, create requests, manual-run requests with their
requested run time). -/
structure DtsClient where
  configs : List TransferConfig
  next_id : Nat
  fresh_state : Nat
  has_valid_creds : Bool
  update_requests : Nat
  create_requests : Nat
  manual_run_requests : List (String × Nat)
deriving DecidableEq

/-- `client.update_transfer_config(request)` with update mask `['params']`:
the service stores the new config under its resource name and returns it. -/
def update_transfer_config (c : DtsClient) (tc : TransferConfig) :
    DtsClient × TransferConfig :=
  ({ c with
      configs := c.configs.map (fun x => if x.name = tc.name then tc else x),
      update_requests := c.update_requests + 1 }, tc)

/-- `client.create_transfer_config(request)`: the service assigns a fresh
resource name and an initial lifecycle state to the requested config and
appends it to the listing.  The `authorization_code` of the request does
not change the observable state modelled here. -/
def create_transfer_config (c : DtsClient) (input : TransferConfig) :
    DtsClient × TransferConfig :=
  let tc := { input with
      name := "transferConfigs/" ++ toString c.next_id,
      state := c.fresh_state }
  ({ c with
      configs := c.configs ++ [tc],
      next_id := c.next_id + 1,
      create_requests := c.create_requests + 1 }, tc)

/-- `client.start_manual_transfer_runs(request)`: records one manual-run
request for the given parent at the requested run time. -/
def start_manual_transfer_runs (c : DtsClient) (parent : String)
    (run_time : Nat) : DtsClient :=
  { c with manual_run_requests := c.manual_run_requests ++ [(parent, run_time)] }

/-- `_update_existing_transfer` (cloud_data_transfer.py, lines 196-235):
skip the update when the parameters already match, otherwise send one
update request whose config carries exactly the new parameters. -/
def update_existing_transfer (c : DtsClient)
    (transfer_config : TransferConfig) (params : List (String × PValue)) :
    DtsClient × TransferConfig :=
  if check_params_match transfer_config params then (c, transfer_config)
  else update_transfer_config c { transfer_config with params := params }

/-- The parameter `Struct` built by `create_merchant_center_transfer`: the
merchant id plus six boolean export flags, all true. -/
def merchant_parameters (merchant_id : String) : List (String × PValue) :=
  [("merchant_id", .s merchant_id),
   ("export_products", .b true),
   ("export_performance", .b true),
   ("export_best_sellers_v2", .b true),
   ("export_price_competitiveness", .b true),
   ("export_price_insights", .b true),
   ("export_offer_targeting", .b true)]

/-- `create_merchant_center_transfer` (cloud_data_transfer.py, lines
237-305): look up an existing transfer by data source, destination dataset
and parameters; update it if found, otherwise create a new config with a
zero-day refresh window (the credentials check and authorization code feed
only the create request). -/
def create_merchant_center_transfer (c : DtsClient)
    (merchant_id destination_dataset : String) : DtsClient × TransferConfig :=
  let parameters := merchant_parameters merchant_id
  match get_existing_transfer c.configs MERCHANT_CENTER_ID
      (some destination_dataset) parameters none with
  | some data_transfer_config =>
      update_existing_transfer c data_transfer_config parameters
  | none =>
      create_transfer_config c
        { name := "",
          data_source_id := MERCHANT_CENTER_ID,
          destination_dataset_id := destination_dataset,
          display_name := "Merchant Center Transfer - " ++ merchant_id,
          params := parameters,
          state := 0,
          schedule := "",
          data_refresh_window_days := 0 }

/-- `schedule_query` (cloud_data_transfer.py, lines 400-459): look up an
existing scheduled-query config by display name; if found, update its
`query` parameter when changed and start one manual run at the current
time `now`; otherwise create a config scheduled `every 24 hours` whose
sole parameter is the query. -/
def schedule_query (c : DtsClient) (name query_string : String)
    (now : Nat) : DtsClient × TransferConfig :=
  let parameters : List (String × PValue) := [("query", .s query_string)]
  match get_existing_transfer c.configs "scheduled_query" none [] (some name) with
  | some data_transfer_config =>
      let r := update_existing_transfer c data_transfer_config parameters
      (start_manual_transfer_runs r.1 r.2.name now, r.2)
  | none =>
      create_transfer_config c
        { name := "",
          data_source_id := "scheduled_query",
          destination_dataset_id := "",
          display_name := name,
          params := [("query", .s query_string)],
          state := 0,
          schedule := "every 24 hours",
          data_refresh_window_days := 0 }

/-- The empty Data Transfer client used by concrete scenarios: no configs,
fresh configs come up PENDING, credentials are valid. -/
def dtsClient0 : DtsClient := ⟨[], 0, PENDING_STATE, true, 0, 0, []⟩

/-- Python `',' in s`, over the characters of `s`. -/
def contains_comma (s : String) : Bool := s.data.any (fun a => a = ',')

/-- Python `s.split(sep)` for a one-character separator, over characters:
splitting at every occurrence, keeping empty pieces, with `[''] ` for the
empty string. -/
def py_split_chars (c : Char) : List Char → List (List Char)
  | [] => [[]]
  | a :: rest =>
    if a = c then [] :: py_split_chars c rest
    else
      match py_split_chars c rest with
      | [] => [[a]]
      | h :: t => (a :: h) :: t

/-- Python `param_value.split(',')`. -/
def split_commas (s : String) : List String :=
  (py_split_chars ',' s.data).map (fun l => String.mk l)

/-- A parsed SQL template, as `str.format` decomposes the file text:
literal fragments interleaved with named placeholders. -/
inductive Chunk where
  | lit (s : String)
  | hole (key : String)
deriving DecidableEq

/-- The exceptions `configure_sql` can raise: the `KeyError` from
`str.format` when the template references a key missing from the
parameters, and the `OSError` from `read_text` when the file cannot be
read.  Both are failures of the templater, the spec's `TemplateError`. -/
inductive TemplateError where
  | keyError (key : String)
  | readError (path : String)
deriving DecidableEq

/-- A query-parameter value (`typing.Any` in the source): the strings and
integers this code passes, plus the tuple of strings that `configure_sql`
builds from a comma-separated string. -/
inductive SqlValue where
  | str (v : String)
  | int (v : Int)
  | tup (atoms : List String)
deriving DecidableEq

/-- Assoc lookup in a parameter mapping, first binding wins. -/
def lookupSql (ps : List (String × SqlValue)) (k : String) : Option SqlValue :=
  (ps.find? (fun p => decide (p.1 = k))).map Prod.snd

/-- Python `str(value)` for the values above: a tuple renders as the
parenthesized, comma-joined sequence of repr-quoted atoms, with Python's
trailing comma for a 1-tuple. -/
def pystr : SqlValue → String
  | .str s => s
  | .int n => toString n
  | .tup [a] => "(" ++ "'" ++ a ++ "'" ++ ",)"
  | .tup atoms =>
      "(" ++ String.intercalate ", " (atoms.map (fun a => "'" ++ a ++ "'")) ++ ")"

/-- The per-value preprocessing of `configure_sql` (cloud_bigquery.py,
lines 119-125): a string containing a comma becomes the tuple of its
comma-separated pieces; every other value is kept as is. -/
def transformParam : SqlValue → SqlValue
  | .str s => if contains_comma s then .tup (split_commas s) else .str s
  | v => v

/-- `sql_script.format(**params)`: substitute each placeholder in turn,
raising `KeyError` at the first placeholder whose key is missing. -/
def formatChunks (chunks : List Chunk) (ps : List (String × SqlValue)) :
    Except TemplateError String :=
  match chunks with
  | [] => .ok ""
  | .lit s :: rest => (formatChunks rest ps).map (fun t => s ++ t)
  | .hole k :: rest =>
    match lookupSql ps k with
    | none => .error (.keyError k)
    | some v => (formatChunks rest ps).map (fun t => pystr v ++ t)

/-- `configure_sql` (cloud_bigquery.py, lines 104-127).  `fs` models the
file system: the parsed template text found at each readable path, `none`
when `read_text` fails. -/
def configure_sql (fs : String → Option (List Chunk)) (sql_path : String)
    (query_params : List (String × SqlValue)) : Except TemplateError String :=
  match fs sql_path with
  | none => .error (.readError sql_path)
  | some sql_script =>
      formatChunks sql_script
        (query_params.map (fun kv => (kv.1, transformParam kv.2)))

/-- `_MAIN_WORKFLOW_SQL` in cloud_bigquery.py. -/
def MAIN_WORKFLOW_SQL : String := "sql/main_workflow.sql"

/-- The fixed ordered script list of `execute_queries`
(cloud_bigquery.py, lines 147-151). -/
def sql_files : List String :=
  ["sql/inventory.sql", "sql/best_sellers.sql", MAIN_WORKFLOW_SQL]

/-- The `for sql_file in sql_files` loop of `execute_queries`
(cloud_bigquery.py, lines 159-166): `attempt f` is the resolving and
submitting of one script (`configure_sql` plus `client.query(...).result()`).
The result lists, in order, the scripts attempted, together with the error
of the first failing script, which the loop logs and re-raises, abandoning
the scripts after it. -/
def run_script_sequence (attempt : String → Except String Unit) :
    List String → List String × Option String
  | [] => ([], none)
  | f :: rest =>
    match attempt f with
    | .ok _ =>
        let r := run_script_sequence attempt rest
        (f :: r.1, r.2)
    | .error e => ([f], some e)

/-- `execute_queries` (cloud_bigquery.py, lines 130-166): run the fixed
script list in order. -/
def execute_queries (attempt : String → Except String Unit) :
    List String × Option String :=
  run_script_sequence attempt sql_files

/-- A BigQuery dataset as this code creates one. -/
structure Dataset where
  id : String
  location : String
deriving DecidableEq

/-- State of the BigQuery service: the existing datasets in creation order
and, per fully-qualified id, an optional injected fetch failure other than
not-found. -/
structure BqState where
  datasets : List Dataset
  fetch_failures : String → Option String

/-- Answer of `client.get_dataset(fully_qualified_dataset_id)`. -/
inductive GetDatasetResult where
  | found (d : Dataset)
  | notFound
  | otherError (e : String)

/-- `client.get_dataset`: an injected failure other than not-found
propagates; otherwise the dataset is returned when present and `NotFound`
is signalled when absent. -/
def get_dataset (w : BqState) (fq_id : String) : GetDatasetResult :=
  match w.fetch_failures fq_id with
  | some e => .otherError e
  | none =>
    match w.datasets.find? (fun d => decide (d.id = fq_id)) with
    | some d => .found d
    | none => .notFound

/-- `client.create_dataset(dataset)`. -/
def create_dataset (w : BqState) (fq_id location : String) : BqState :=
  { w with datasets := w.datasets ++ [⟨fq_id, location⟩] }

/-- `create_dataset_if_not_exists` (cloud_bigquery.py, lines 34-55): fetch
the dataset by `project_id.dataset_id`; only on the `NotFound` signal
create it with the given location; any other fetch failure propagates. -/
def create_dataset_if_not_exists (w : BqState)
    (project_id dataset_id dataset_location : String) :
    Except String BqState :=
  let fully_qualified_dataset_id := project_id ++ "." ++ dataset_id
  match get_dataset w fully_qualified_dataset_id with
  | .found _ => .ok w
  | .notFound =>
      .ok (create_dataset w fully_qualified_dataset_id dataset_location)
  | .otherError e => .error e

/-- The parameters of `CloudDataTransferUtils.__init__` besides `self`
(cloud_data_transfer.py, lines 62-69): only the project id. -/
def cloud_data_transfer_utils_init_params : List String := ["project_id"]

/-- The positional arguments `main` passes when constructing
`CloudDataTransferUtils` (cloud_env_setup.py, lines 109-111): the project
id and the optional service-account email. -/
def main_transfer_utils_args (project_id : String)
    (service_account_email : Option String) : List (Option String) :=
  [some project_id, service_account_email]

/-- A Python `TypeError`. -/
inductive PyError where
  | typeError
deriving DecidableEq

/-- The steps of `main` (cloud_env_setup.py, lines 104-172), in source
order. -/
inductive SetupStep where
  | construct_transfer_utils
  | enable_apis
  | create_dataset
  | create_merchant_center_transfer
  | create_google_ads_transfer
  | wait_merchant_transfer
  | wait_ads_transfer
  | load_language_codes
  | load_geo_targets
  | execute_sql_queries
  | schedule_main_workflow_query
deriving DecidableEq

/-- The command-line arguments of `main` after parsing: the required and
optional flags of `parse_arguments`. -/
structure Args where
  project_id : String
  dataset_id : String
  dataset_location : String
  merchant_id : String
  ads_customer_id : String
  service_account_email : Option String

/-- Python call binding: passing `given` positional arguments to a callee
with `accepted` mandatory parameters (no defaults, no varargs) raises
`TypeError` unless the counts agree. -/
def bind_positional (accepted given : Nat) : Except PyError Unit :=
  if given = accepted then .ok () else .error .typeError

/-- `main` (cloud_env_setup.py, lines 104-172) as the sequence of steps it
reaches: the `CloudDataTransferUtils` constructor call is bound first
(line 109); only if that binding succeeds do the remaining steps run, in
source order (lines 113-171). -/
def main_trace (args : Args) : List SetupStep × Option PyError :=
  match bind_positional cloud_data_transfer_utils_init_params.length
      (main_transfer_utils_args args.project_id
        args.service_account_email).length with
  | .error e => ([.construct_transfer_utils], some e)
  | .ok _ =>
    ([.construct_transfer_utils, .enable_apis, .create_dataset,
      .create_merchant_center_transfer, .create_google_ads_transfer,
      .wait_merchant_transfer, .wait_ads_transfer, .load_language_codes,
      .load_geo_targets, .execute_sql_queries,
      .schedule_main_workflow_query], none)

/-- The transfer-config input that `create_merchant_center_transfer` sends
in its create request. -/
def merchant_input (merchant_id destination_dataset : String) : TransferConfig :=
  { name := "",
    data_source_id := MERCHANT_CENTER_ID,
    destination_dataset_id := destination_dataset,
    display_name := "Merchant Center Transfer - " ++ merchant_id,
    params := merchant_parameters merchant_id,
    state := 0,
    schedule := "",
    data_refresh_window_days := 0 }

/-- A failed merchant-center config, for the C7 witness. -/
def tcFailed : TransferConfig :=
  ⟨"projects/p/locations/us/transferConfigs/1", "merchant_center", "ds",
   "old transfer", [], FAILED_STATE, "", 0⟩

/-- A running merchant-center config, for the C7 witness. -/
def tcValid : TransferConfig :=
  ⟨"projects/p/locations/us/transferConfigs/2", "merchant_center", "ds",
   "new transfer", [], RUNNING_STATE, "", 0⟩

/-- An existing scheduled-query config, for the C10 witness. -/
def tcSQ : TransferConfig :=
  ⟨"projects/p/locations/us/transferConfigs/9", "scheduled_query", "",
   "Main workflow - merch_intel - 5678", [("query", .s "SELECT 1")],
   SUCCESS_STATE, "every 24 hours", 0⟩

/-- A client holding `tcSQ`, for the C10 witness. -/
def dtsClientQ : DtsClient := ⟨[tcSQ], 10, PENDING_STATE, true, 0, 0, []⟩

/-- The per-script outcome for the C9 witness: `best_sellers.sql` fails
with "boom", every other script succeeds. -/
def attemptW : String → Except String Unit := fun s =>
  if s = "sql/best_sellers.sql" then .error "boom" else .ok ()

/-- Example parsed arguments, for the C4 witness. -/
def argsEx : Args :=
  ⟨"p", "merch_intel", "us", "123", "456789", some "sa@p.example"⟩

/-- The concrete template file system for the C6 witness: an IN-clause
template and a LIMIT template. -/
def fsC6 : String → Option (List Chunk) := fun p =>
  if p = "sql/in_clause.sql" then
    some [.lit "SELECT * FROM t WHERE x IN ", .hole "ids", .lit " AND y = 1"]
  else if p = "sql/limit.sql" then
    some [.lit "LIMIT ", .hole "rows", .lit ";"]
  else none

theorem get_existing_transfer_eq_find (dsid : String) (dest : Option String)
    (params : List (String × PValue)) (nm : Option String) :
    ∀ configs : List TransferConfig,
      get_existing_transfer configs dsid dest params nm =
        configs.find? (matches_transfer dsid dest params nm)
  | [] => rfl
  | tc :: rest => by
    have hrec := get_existing_transfer_eq_find dsid dest params nm rest
    rw [get_existing_transfer, List.find?]
    by_cases h1 : tc.data_source_id = dsid
    · by_cases h2 : dest_mismatch dest tc = true
      · simp [matches_transfer, h1, h2, hrec]
      · by_cases h3 : (check_params_match tc params &&
            valid_reuse_state tc.state && name_match nm tc) = true
        · simp [matches_transfer, h1, h2, h3]
        · simp [matches_transfer, h1, h2, h3, hrec]
    · simp [matches_transfer, h1, hrec]

theorem wait_go_step_none (inspect : Nat → Option TransferRun)
    (idx polls sleeps c : Nat) (h : inspect idx = none) :
    wait_go inspect idx polls sleeps c = ⟨polls + 1, sleeps, .completed⟩ := by
  rw [wait_go, h]

theorem wait_go_step_success (inspect : Nat → Option TransferRun)
    (idx polls sleeps c : Nat) (r : TransferRun) (h : inspect idx = some r)
    (hs : r.state = SUCCESS_STATE) :
    wait_go inspect idx polls sleeps c = ⟨polls + 1, sleeps, .completed⟩ := by
  rw [wait_go, h]
  simp [hs]

theorem wait_go_step_terminal (inspect : Nat → Option TransferRun)
    (idx polls sleeps c : Nat) (r : TransferRun) (h : inspect idx = some r)
    (hs : r.state = FAILED_STATE ∨ r.state = CANCELLED_STATE) :
    wait_go inspect idx polls sleeps c =
      ⟨polls + 1, sleeps, .transferError r.error_status⟩ := by
  have hne : ¬ r.state = SUCCESS_STATE := by
    rcases hs with hs | hs <;> simp [hs, SUCCESS_STATE, FAILED_STATE, CANCELLED_STATE]
  rw [wait_go, h]
  simp [hne, hs]

theorem wait_go_step_progress (inspect : Nat → Option TransferRun)
    (idx polls sleeps c : Nat) (r : TransferRun) (h : inspect idx = some r)
    (hs : r.state = PENDING_STATE ∨ r.state = RUNNING_STATE) :
    wait_go inspect idx polls sleeps c =
      if MAX_POLL_COUNTER ≤ c + 1 then ⟨polls + 1, sleeps + 1, .timeoutError⟩
      else wait_go inspect (idx + 1) (polls + 1) (sleeps + 1) (c + 1) := by
  have h4 : ¬ r.state = SUCCESS_STATE := by
    rcases hs with hs | hs <;>
      simp [hs, SUCCESS_STATE, PENDING_STATE, RUNNING_STATE]
  have h56 : ¬ (r.state = FAILED_STATE ∨ r.state = CANCELLED_STATE) := by
    rcases hs with hs | hs <;>
      simp [hs, FAILED_STATE, CANCELLED_STATE, PENDING_STATE, RUNNING_STATE]
  rw [wait_go, h]
  simp [h4, h56]

theorem wait_go_all_progress (inspect : Nat → Option TransferRun)
    (hall : ∀ i, ∃ r, inspect i = some r ∧
      (r.state = PENDING_STATE ∨ r.state = RUNNING_STATE)) :
    ∀ (n idx polls sleeps c : Nat), MAX_POLL_COUNTER - c = n → c < MAX_POLL_COUNTER →
      wait_go inspect idx polls sleeps c = ⟨polls + n, sleeps + n, .timeoutError⟩ := by
  intro n
  induction n with
  | zero =>
    intro idx polls sleeps c hn hc
    omega
  | succ m ih =>
    intro idx polls sleeps c hn hc
    obtain ⟨r, hr, hst⟩ := hall idx
    rw [wait_go_step_progress inspect idx polls sleeps c r hr hst]
    by_cases hend : MAX_POLL_COUNTER ≤ c + 1
    · have hm : m = 0 := by omega
      simp [hend, hm]
    · rw [if_neg hend]
      rw [ih (idx + 1) (polls + 1) (sleeps + 1) (c + 1) (by omega) (by omega)]
      simp only [WaitTrace.mk.injEq]
      exact ⟨by omega, by omega, trivial⟩

/-- Claim C1: whenever every inspection of the run list reports the most
recent run still PENDING or RUNNING, `wait_for_transfer_completion` sleeps a
fixed 60-unit interval between inspections, performs exactly
`MAX_POLL_COUNTER = 100` polls (no 101st poll) and 100 sleeps, and ends with
the timeout `DataTransferError`; and on the run-state sequence
`[RUNNING, RUNNING, SUCCEEDED]` it returns successfully after exactly
2 sleeps (and 3 polls). -/
theorem wait_for_transfer_completion_bounded_polling
    (inspect : Nat → Option TransferRun)
    (hall : ∀ i, ∃ r, inspect i = some r ∧
      (r.state = PENDING_STATE ∨ r.state = RUNNING_STATE)) :
    SLEEP_SECONDS = 60 ∧ MAX_POLL_COUNTER = 100 ∧
    wait_for_transfer_completion inspect =
      ⟨MAX_POLL_COUNTER, MAX_POLL_COUNTER, .timeoutError⟩ ∧
    wait_for_transfer_completion runSeqRRS = ⟨3, 2, .completed⟩ := by
  refine ⟨rfl, rfl, ?_, ?_⟩
  · have h := wait_go_all_progress inspect hall MAX_POLL_COUNTER 0 0 0 0
      (by omega) (by simp [MAX_POLL_COUNTER])
    simpa [wait_for_transfer_completion] using h
  · rw [wait_for_transfer_completion]
    rw [wait_go_step_progress _ 0 0 0 0 ⟨RUNNING_STATE, ""⟩ rfl (Or.inr rfl)]
    rw [if_neg (by simp [MAX_POLL_COUNTER])]
    rw [wait_go_step_progress _ 1 1 1 1 ⟨RUNNING_STATE, ""⟩ rfl (Or.inr rfl)]
    rw [if_neg (by simp [MAX_POLL_COUNTER])]
    exact wait_go_step_success _ 2 2 2 2 ⟨SUCCESS_STATE, ""⟩ rfl rfl

/-- Witness for C1 at the concrete inspection function that always reports a
RUNNING run. -/
theorem wait_for_transfer_completion_bounded_polling_witness :
    SLEEP_SECONDS = 60 ∧ MAX_POLL_COUNTER = 100 ∧
    wait_for_transfer_completion (fun _ => some ⟨RUNNING_STATE, ""⟩) =
      ⟨MAX_POLL_COUNTER, MAX_POLL_COUNTER, .timeoutError⟩ ∧
    wait_for_transfer_completion runSeqRRS = ⟨3, 2, .completed⟩ :=
  wait_for_transfer_completion_bounded_polling
    (fun _ => some ⟨RUNNING_STATE, ""⟩)
    (fun _ => ⟨⟨RUNNING_STATE, ""⟩, rfl, Or.inr rfl⟩)

/-- Claim C2: when the run list is empty on the first inspection,
`wait_for_transfer_completion` returns successfully after a single poll and
no sleep; when the most recent run is FAILED or CANCELLED on the first
inspection, it ends immediately (one poll, no sleep) with a
`DataTransferError` carrying that run's error payload. -/
theorem wait_for_transfer_completion_immediate_cases
    (inspect₁ inspect₂ : Nat → Option TransferRun) (r : TransferRun)
    (h1 : inspect₁ 0 = none) (h2 : inspect₂ 0 = some r)
    (hst : r.state = FAILED_STATE ∨ r.state = CANCELLED_STATE) :
    wait_for_transfer_completion inspect₁ = ⟨1, 0, .completed⟩ ∧
    wait_for_transfer_completion inspect₂ =
      ⟨1, 0, .transferError r.error_status⟩ := by
  constructor
  · rw [wait_for_transfer_completion]
    exact wait_go_step_none _ 0 0 0 0 h1
  · rw [wait_for_transfer_completion]
    exact wait_go_step_terminal _ 0 0 0 0 r h2 hst

/-- Witness for C2 at an empty run list and at a FAILED first run whose
error payload is the string "boom". -/
theorem wait_for_transfer_completion_immediate_cases_witness :
    wait_for_transfer_completion (fun _ => none) = ⟨1, 0, .completed⟩ ∧
    wait_for_transfer_completion (fun _ => some ⟨FAILED_STATE, "boom"⟩) =
      ⟨1, 0, .transferError "boom"⟩ :=
  wait_for_transfer_completion_immediate_cases
    (fun _ => none) (fun _ => some ⟨FAILED_STATE, "boom"⟩)
    ⟨FAILED_STATE, "boom"⟩ rfl rfl (Or.inl rfl)

/-- Claim C7: `_get_existing_transfer` returns exactly the first listed
config whose data-source id equals the requested one, whose destination
dataset matches when one is specified, whose parameter mapping contains
every requested key with an equal value, whose display name matches when
one is specified, and whose state is one of pending, running, succeeded;
and any returned config is never in the failed or cancelled state (so
`none` results exactly when no config qualifies, by `List.find?`). -/
theorem get_existing_transfer_first_match (configs : List TransferConfig)
    (dsid : String) (dest : Option String)
    (params : List (String × PValue)) (nm : Option String) :
    get_existing_transfer configs dsid dest params nm =
      configs.find? (fun tc =>
        decide (tc.data_source_id = dsid) &&
        (match dest with
         | none => true
         | some d => decide (tc.destination_dataset_id = d)) &&
        params.all (fun kv => decide (lookupParam tc.params kv.1 = some kv.2)) &&
        (match nm with
         | none => true
         | some n => decide (n = tc.display_name)) &&
        (decide (tc.state = PENDING_STATE) ||
         decide (tc.state = RUNNING_STATE) ||
         decide (tc.state = SUCCESS_STATE))) ∧
    ∀ tc, get_existing_transfer configs dsid dest params nm = some tc →
      tc.state ≠ FAILED_STATE ∧ tc.state ≠ CANCELLED_STATE := by
  have hpred : ∀ tc : TransferConfig,
      matches_transfer dsid dest params nm tc =
        (decide (tc.data_source_id = dsid) &&
        (match dest with
         | none => true
         | some d => decide (tc.destination_dataset_id = d)) &&
        params.all (fun kv => decide (lookupParam tc.params kv.1 = some kv.2)) &&
        (match nm with
         | none => true
         | some n => decide (n = tc.display_name)) &&
        (decide (tc.state = PENDING_STATE) ||
         decide (tc.state = RUNNING_STATE) ||
         decide (tc.state = SUCCESS_STATE))) := by
    intro tc
    rw [Bool.eq_iff_iff]
    cases dest <;> cases nm <;>
      rcases params with _ | ⟨kv, ps⟩ <;>
        simp [matches_transfer, dest_mismatch, name_match, valid_reuse_state,
          check_params_match] <;> tauto
  constructor
  · rw [get_existing_transfer_eq_find]
    congr 1
    funext tc
    exact hpred tc
  · intro tc h
    rw [get_existing_transfer_eq_find] at h
    have hm := List.find?_some h
    simp only [matches_transfer, Bool.and_eq_true] at hm
    obtain ⟨-, ⟨-, hv⟩, -⟩ := hm
    simp only [valid_reuse_state, Bool.or_eq_true, decide_eq_true_eq] at hv
    simp only [PENDING_STATE, RUNNING_STATE, SUCCESS_STATE, FAILED_STATE,
      CANCELLED_STATE] at hv ⊢
    omega

/-- Witness for C7: on the concrete listing `[tcFailed, tcValid]` the
failed config is skipped and the returned config is not failed/cancelled. -/
theorem get_existing_transfer_first_match_witness :
    tcValid.state ≠ FAILED_STATE ∧ tcValid.state ≠ CANCELLED_STATE :=
  (get_existing_transfer_first_match [tcFailed, tcValid] "merchant_center"
    none [] none).2 tcValid (by decide)

theorem check_params_match_merchant_self (tc : TransferConfig) (mid : String)
    (h : tc.params = merchant_parameters mid) :
    check_params_match tc (merchant_parameters mid) = true := by
  simp [check_params_match, merchant_parameters, lookupParam, h]

theorem check_params_match_merchant_ne (tc : TransferConfig) (mid mid' : String)
    (h : tc.params = merchant_parameters mid) (hne : mid ≠ mid') :
    check_params_match tc (merchant_parameters mid') = false := by
  simp [check_params_match, merchant_parameters, lookupParam, h, hne]

theorem merchant_transfer_created (c : DtsClient) (mid ds : String)
    (hnone : get_existing_transfer c.configs MERCHANT_CENTER_ID (some ds)
      (merchant_parameters mid) none = none) :
    create_merchant_center_transfer c mid ds =
      create_transfer_config c (merchant_input mid ds) := by
  simp only [create_merchant_center_transfer, merchant_input, hnone]

theorem matches_transfer_created_merchant (c : DtsClient) (mid ds : String)
    (hfresh : valid_reuse_state c.fresh_state = true) :
    matches_transfer MERCHANT_CENTER_ID (some ds) (merchant_parameters mid)
      none (create_transfer_config c (merchant_input mid ds)).2 = true := by
  simp [matches_transfer, create_transfer_config, merchant_input,
    dest_mismatch, name_match, hfresh, check_params_match_merchant_self]

theorem not_matches_created_merchant (c : DtsClient) (mid mid' ds : String)
    (hne : mid ≠ mid') :
    matches_transfer MERCHANT_CENTER_ID (some ds) (merchant_parameters mid')
      none (create_transfer_config c (merchant_input mid ds)).2 = false := by
  have hp : check_params_match
      (create_transfer_config c (merchant_input mid ds)).2
      (merchant_parameters mid') = false :=
    check_params_match_merchant_ne _ mid mid' rfl hne
  simp [matches_transfer, hp]

/-- Claim C3 counterexample: starting from an empty service, creating the
merchant transfer for merchant id "1234" and then invoking
`create_merchant_center_transfer` with the changed merchant id "5678"
issues zero update requests, not exactly one, and creates a second config
rather than reusing the existing one. -/
theorem create_merchant_center_transfer_changed_counterexample :
    (create_merchant_center_transfer
        (create_merchant_center_transfer dtsClient0 "1234" "merch_intel").1
        "5678" "merch_intel").1.update_requests = 0 ∧
    (create_merchant_center_transfer
        (create_merchant_center_transfer dtsClient0 "1234" "merch_intel").1
        "5678" "merch_intel").1.configs.length = 2 := by
  decide

/-- Claim C3 (amended): when no matching transfer pre-exists and the
service brings new configs up in a reusable (pending/running/succeeded)
state, a second call with identical parameters returns the very same
logical config and leaves the service state unchanged, so no update
request is issued; a call with a changed merchant id, however, issues no
update request either: it appends a brand-new config and leaves the
existing config in place. -/
theorem create_merchant_center_transfer_idempotent_or_create (c : DtsClient)
    (mid mid' ds : String)
    (hfresh : valid_reuse_state c.fresh_state = true)
    (hmid : mid ≠ mid')
    (hnone : get_existing_transfer c.configs MERCHANT_CENTER_ID (some ds)
      (merchant_parameters mid) none = none)
    (hnone' : get_existing_transfer c.configs MERCHANT_CENTER_ID (some ds)
      (merchant_parameters mid') none = none) :
    create_merchant_center_transfer
        (create_merchant_center_transfer c mid ds).1 mid ds =
      create_merchant_center_transfer c mid ds ∧
    (create_merchant_center_transfer
        (create_merchant_center_transfer c mid ds).1 mid' ds).1.update_requests =
      (create_merchant_center_transfer c mid ds).1.update_requests ∧
    (create_merchant_center_transfer
        (create_merchant_center_transfer c mid ds).1 mid' ds).1.configs =
      (create_merchant_center_transfer c mid ds).1.configs ++
        [(create_merchant_center_transfer
            (create_merchant_center_transfer c mid ds).1 mid' ds).2] ∧
    (create_merchant_center_transfer c mid ds).2 ∈
      (create_merchant_center_transfer
        (create_merchant_center_transfer c mid ds).1 mid' ds).1.configs := by
  have h1 : create_merchant_center_transfer c mid ds =
      create_transfer_config c (merchant_input mid ds) :=
    merchant_transfer_created c mid ds hnone
  rw [h1]
  set q := create_transfer_config c (merchant_input mid ds) with hq
  have hn : List.find? (matches_transfer MERCHANT_CENTER_ID (some ds)
      (merchant_parameters mid) none) c.configs = none := by
    rw [← get_existing_transfer_eq_find]
    exact hnone
  have hn' : List.find? (matches_transfer MERCHANT_CENTER_ID (some ds)
      (merchant_parameters mid') none) c.configs = none := by
    rw [← get_existing_transfer_eq_find]
    exact hnone'
  have hconfigs : q.1.configs = c.configs ++ [q.2] := rfl
  have hfind : get_existing_transfer q.1.configs MERCHANT_CENTER_ID
      (some ds) (merchant_parameters mid) none = some q.2 := by
    rw [get_existing_transfer_eq_find, hconfigs, List.find?_append, hn]
    simp [List.find?, matches_transfer_created_merchant c mid ds hfresh]
  have hfind' : get_existing_transfer q.1.configs MERCHANT_CENTER_ID
      (some ds) (merchant_parameters mid') none = none := by
    rw [get_existing_transfer_eq_find, hconfigs, List.find?_append, hn']
    simp [List.find?, not_matches_created_merchant c mid mid' ds hmid]
  have hsecond : create_merchant_center_transfer q.1 mid ds = q := by
    simp only [create_merchant_center_transfer, hfind]
    simp [update_existing_transfer, check_params_match_merchant_self q.2 mid rfl]
  have hthird : create_merchant_center_transfer q.1 mid' ds =
      create_transfer_config q.1 (merchant_input mid' ds) :=
    merchant_transfer_created q.1 mid' ds hfind'
  refine ⟨hsecond, ?_, ?_, ?_⟩
  · rw [hthird]
    rfl
  · rw [hthird]
    rfl
  · rw [hthird]
    show q.2 ∈ q.1.configs ++ _
    rw [hconfigs]
    simp

/-- Witness for the amended C3 at the concrete empty client, merchant ids
"1234" and "5678" and dataset "merch_intel". -/
theorem create_merchant_center_transfer_idempotent_or_create_witness :
    create_merchant_center_transfer
        (create_merchant_center_transfer dtsClient0 "1234" "merch_intel").1
        "1234" "merch_intel" =
      create_merchant_center_transfer dtsClient0 "1234" "merch_intel" ∧
    (create_merchant_center_transfer
        (create_merchant_center_transfer dtsClient0 "1234" "merch_intel").1
        "5678" "merch_intel").1.update_requests =
      (create_merchant_center_transfer dtsClient0 "1234" "merch_intel").1.update_requests ∧
    (create_merchant_center_transfer
        (create_merchant_center_transfer dtsClient0 "1234" "merch_intel").1
        "5678" "merch_intel").1.configs =
      (create_merchant_center_transfer dtsClient0 "1234" "merch_intel").1.configs ++
        [(create_merchant_center_transfer
            (create_merchant_center_transfer dtsClient0 "1234" "merch_intel").1
            "5678" "merch_intel").2] ∧
    (create_merchant_center_transfer dtsClient0 "1234" "merch_intel").2 ∈
      (create_merchant_center_transfer
        (create_merchant_center_transfer dtsClient0 "1234" "merch_intel").1
        "5678" "merch_intel").1.configs :=
  create_merchant_center_transfer_idempotent_or_create dtsClient0
    "1234" "5678" "merch_intel" (by decide) (by decide) rfl rfl

/-- Claim C10: `schedule_query` looks up an existing scheduled-query config
by exact display name.  When one is found it updates the config's `query`
parameter only when the query text changed, issues exactly one manual-run
request at the current timestamp, and returns the (possibly updated)
config; when none is found it creates a new config whose schedule is the
fixed expression "every 24 hours" and whose parameter mapping is the
single entry mapping "query" to the supplied query text. -/
theorem schedule_query_spec (c : DtsClient) (nm q : String) (now : Nat) :
    (∀ tc, get_existing_transfer c.configs "scheduled_query" none []
        (some nm) = some tc →
      (lookupParam tc.params "query" = some (.s q) →
        schedule_query c nm q now =
          ({ c with manual_run_requests :=
              c.manual_run_requests ++ [(tc.name, now)] }, tc)) ∧
      (lookupParam tc.params "query" ≠ some (.s q) →
        schedule_query c nm q now =
          ({ c with
              configs := c.configs.map (fun x =>
                if x.name = tc.name then { tc with params := [("query", .s q)] }
                else x),
              update_requests := c.update_requests + 1,
              manual_run_requests :=
                c.manual_run_requests ++ [(tc.name, now)] },
           { tc with params := [("query", .s q)] }))) ∧
    (get_existing_transfer c.configs "scheduled_query" none [] (some nm) = none →
      (schedule_query c nm q now).2.schedule = "every 24 hours" ∧
      (schedule_query c nm q now).2.params = [("query", .s q)] ∧
      (schedule_query c nm q now).2.display_name = nm ∧
      (schedule_query c nm q now).1.manual_run_requests = c.manual_run_requests ∧
      (schedule_query c nm q now).1.update_requests = c.update_requests ∧
      (schedule_query c nm q now).1.configs =
        c.configs ++ [(schedule_query c nm q now).2]) := by
  constructor
  · intro tc hfound
    have hcheck : check_params_match tc [("query", .s q)] =
        decide (lookupParam tc.params "query" = some (.s q)) := by
      simp [check_params_match]
    constructor
    · intro hsame
      simp only [schedule_query, hfound]
      simp [update_existing_transfer, hcheck, hsame, start_manual_transfer_runs]
    · intro hdiff
      simp only [schedule_query, hfound]
      simp [update_existing_transfer, hcheck, hdiff, start_manual_transfer_runs,
        update_transfer_config]
  · intro hnone
    simp only [schedule_query, hnone]
    exact ⟨rfl, rfl, rfl, rfl, rfl, rfl⟩

/-- Witness for C10: re-scheduling the existing query under its display
name with the changed text "SELECT 2" updates the config's sole `query`
parameter and requests exactly one manual run at time 7. -/
theorem schedule_query_spec_witness :
    schedule_query dtsClientQ "Main workflow - merch_intel - 5678" "SELECT 2" 7 =
      ({ dtsClientQ with
          configs := dtsClientQ.configs.map (fun x =>
            if x.name = tcSQ.name then { tcSQ with params := [("query", .s "SELECT 2")] }
            else x),
          update_requests := dtsClientQ.update_requests + 1,
          manual_run_requests :=
            dtsClientQ.manual_run_requests ++ [(tcSQ.name, 7)] },
       { tcSQ with params := [("query", .s "SELECT 2")] }) :=
  ((schedule_query_spec dtsClientQ "Main workflow - merch_intel - 5678"
      "SELECT 2" 7).1 tcSQ (by decide)).2 (by decide)

theorem lookupSql_map_transform (ps : List (String × SqlValue)) (k : String) :
    lookupSql (ps.map (fun kv => (kv.1, transformParam kv.2))) k =
      (lookupSql ps k).map transformParam := by
  induction ps with
  | nil => rfl
  | cons kv rest ih =>
    simp only [List.map_cons, lookupSql, List.find?]
    by_cases h : kv.1 = k
    · simp [h]
    · simpa [h, lookupSql] using ih

theorem formatChunks_error_of_missing (ps : List (String × SqlValue)) :
    ∀ (chunks : List Chunk) (k : String), Chunk.hole k ∈ chunks →
      lookupSql ps k = none → ∃ e, formatChunks chunks ps = .error e := by
  intro chunks
  induction chunks with
  | nil =>
    intro k hk hnone
    exact absurd hk (List.not_mem_nil _)
  | cons c rest ih =>
    intro k hk hnone
    cases c with
    | lit s =>
      have hk' : Chunk.hole k ∈ rest := by
        rcases List.mem_cons.mp hk with h | h
        · exact absurd h (by simp)
        · exact h
      obtain ⟨e, he⟩ := ih k hk' hnone
      exact ⟨e, by simp [formatChunks, he, Except.map]⟩
    | hole k2 =>
      cases hlk : lookupSql ps k2 with
      | none => exact ⟨.keyError k2, by simp [formatChunks, hlk]⟩
      | some v =>
        have hk' : Chunk.hole k ∈ rest := by
          rcases List.mem_cons.mp hk with h | h
          · have hkk : k = k2 := by injection h
            rw [hkk, hlk] at hnone
            cases hnone
          · exact h
        obtain ⟨e, he⟩ := ih k hk' hnone
        exact ⟨e, by simp [formatChunks, hlk, he, Except.map]⟩

theorem py_split_chars_ne_nil (c : Char) (l : List Char) :
    py_split_chars c l ≠ [] := by
  cases l with
  | nil => simp [py_split_chars]
  | cons a rest =>
    simp only [py_split_chars]
    by_cases h : a = c
    · simp [h]
    · simp only [if_neg h]
      cases py_split_chars c rest <;> simp

theorem split_commas_two_le (s : String) (h : contains_comma s = true) :
    2 ≤ (split_commas s).length := by
  have key : ∀ l : List Char, l.any (fun a => a = ',') = true →
      2 ≤ (py_split_chars ',' l).length := by
    intro l
    induction l with
    | nil => simp
    | cons a rest ih =>
      intro hany
      simp only [py_split_chars]
      by_cases hc : a = ','
      · simp only [if_pos hc, List.length_cons]
        have h1 : 0 < (py_split_chars ',' rest).length :=
          List.length_pos.mpr (py_split_chars_ne_nil ',' rest)
        omega
      · simp only [if_neg hc]
        have hany' : rest.any (fun a => a = ',') = true := by
          simp only [List.any_cons, Bool.or_eq_true, decide_eq_true_eq] at hany
          rcases hany with h | h
          · exact absurd h hc
          · exact h
        have h2 := ih hany'
        cases hsp : py_split_chars ',' rest with
        | nil => exact absurd hsp (py_split_chars_ne_nil ',' rest)
        | cons hd tl =>
          rw [hsp] at h2
          simp only [List.length_cons] at h2 ⊢
          omega
  have h2 := key s.data (by simpa [contains_comma] using h)
  simpa [split_commas] using h2

theorem pystr_tup_of_two_le (atoms : List String) (h : 2 ≤ atoms.length) :
    pystr (.tup atoms) =
      "(" ++ String.intercalate ", "
        (atoms.map (fun a => "'" ++ a ++ "'")) ++ ")" := by
  rcases atoms with _ | ⟨a, _ | ⟨b, t⟩⟩
  · simp at h
  · simp at h
  · rfl

theorem formatChunks_three (pre post k : String)
    (ps : List (String × SqlValue)) (v : SqlValue)
    (hlk : lookupSql ps k = some v) :
    formatChunks [.lit pre, .hole k, .lit post] ps =
      .ok (pre ++ pystr v ++ post) := by
  simp [formatChunks, hlk, Except.map, String.append_assoc]

/-- Claim C4: for every parsed command line, `main` binds the
`CloudDataTransferUtils` constructor call with two positional arguments
while the initializer accepts only the project id, so the run raises a
`TypeError` at the construction step and never reaches `enable_apis` or
any later step; in particular the service-account argument can never be
consumed by the one-parameter initializer. -/
theorem main_raises_type_error_before_enable_apis (args : Args) :
    main_trace args = ([.construct_transfer_utils], some .typeError) ∧
    SetupStep.enable_apis ∉ (main_trace args).1 ∧
    cloud_data_transfer_utils_init_params.length = 1 ∧
    (main_transfer_utils_args args.project_id
      args.service_account_email).length = 2 := by
  have h : main_trace args = ([.construct_transfer_utils], some .typeError) := rfl
  exact ⟨h, by rw [h]; decide, rfl, rfl⟩

/-- Witness for C4 at concrete command-line arguments. -/
theorem main_raises_type_error_before_enable_apis_witness :
    main_trace argsEx = ([.construct_transfer_utils], some .typeError) ∧
    SetupStep.enable_apis ∉ (main_trace argsEx).1 ∧
    cloud_data_transfer_utils_init_params.length = 1 ∧
    (main_transfer_utils_args argsEx.project_id
      argsEx.service_account_email).length = 2 :=
  main_raises_type_error_before_enable_apis argsEx

/-- Claim C5: `configure_sql` fails with a `TemplateError` when the
template file cannot be read (the read error names the path), and fails
with a `TemplateError` when the template references a placeholder key not
present in the parameter mapping. -/
theorem configure_sql_template_errors
    (fs : String → Option (List Chunk)) (path : String)
    (params : List (String × SqlValue)) :
    (fs path = none →
      configure_sql fs path params = .error (.readError path)) ∧
    (∀ chunks k, fs path = some chunks → Chunk.hole k ∈ chunks →
      lookupSql params k = none →
      ∃ e, configure_sql fs path params = .error e) := by
  constructor
  · intro h
    simp [configure_sql, h]
  · intro chunks k hfs hk hnone
    have hnone' : lookupSql
        (params.map (fun kv => (kv.1, transformParam kv.2))) k = none := by
      rw [lookupSql_map_transform, hnone]
      rfl
    obtain ⟨e, he⟩ := formatChunks_error_of_missing _ chunks k hk hnone'
    exact ⟨e, by simp [configure_sql, hfs, he]⟩

/-- Witness for C5: an unreadable path fails with the read error, and a
template whose placeholder `dataset` has no binding fails. -/
theorem configure_sql_template_errors_witness :
    (fsC6 "sql/missing.sql" = none ∧
      configure_sql fsC6 "sql/missing.sql" [] =
        .error (.readError "sql/missing.sql")) ∧
    (fsC6 "sql/limit.sql" =
        some [.lit "LIMIT ", .hole "rows", .lit ";"] ∧
      Chunk.hole "rows" ∈ [Chunk.lit "LIMIT ", .hole "rows", .lit ";"] ∧
      lookupSql [] "rows" = none ∧
      ∃ e, configure_sql fsC6 "sql/limit.sql" [] = .error e) :=
  ⟨⟨rfl, (configure_sql_template_errors fsC6 "sql/missing.sql" []).1 rfl⟩,
   ⟨rfl, by decide, rfl,
    (configure_sql_template_errors fsC6 "sql/limit.sql" []).2
      [.lit "LIMIT ", .hole "rows", .lit ";"] "rows" rfl (by decide) rfl⟩⟩

/-- Claim C6: `configure_sql` substitutes a parameter whose value is a
string containing a comma by the parenthesized, comma-joined tuple of
quoted atoms obtained by splitting on commas, and substitutes every other
value verbatim; concretely, the value "a,b,c" yields the literal substring
"('a', 'b', 'c')" in the resolved text and the scalar 42 yields "42". -/
theorem configure_sql_substitution
    (fs : String → Option (List Chunk)) (path pre post k s : String)
    (params : List (String × SqlValue)) (n : Int)
    (hfs : fs path = some [.lit pre, .hole k, .lit post]) :
    (lookupSql params k = some (.str s) → contains_comma s = true →
      configure_sql fs path params =
        .ok (pre ++ ("(" ++ String.intercalate ", "
          ((split_commas s).map (fun a => "'" ++ a ++ "'")) ++ ")") ++ post)) ∧
    (lookupSql params k = some (.str s) → contains_comma s = false →
      configure_sql fs path params = .ok (pre ++ s ++ post)) ∧
    (lookupSql params k = some (.int n) →
      configure_sql fs path params = .ok (pre ++ toString n ++ post)) ∧
    configure_sql fsC6 "sql/in_clause.sql" [("ids", .str "a,b,c")] =
      .ok ("SELECT * FROM t WHERE x IN " ++ "('a', 'b', 'c')" ++ " AND y = 1") ∧
    configure_sql fsC6 "sql/limit.sql" [("rows", .int 42)] =
      .ok ("LIMIT " ++ "42" ++ ";") := by
  refine ⟨?_, ?_, ?_, by rfl, by rfl⟩
  · intro hlk hc
    have hlk' : lookupSql
        (params.map (fun kv => (kv.1, transformParam kv.2))) k =
          some (transformParam (.str s)) := by
      rw [lookupSql_map_transform, hlk]
      rfl
    simp only [configure_sql, hfs]
    rw [formatChunks_three pre post k _ _ hlk']
    have ht : transformParam (.str s) = .tup (split_commas s) := by
      simp [transformParam, hc]
    rw [ht, pystr_tup_of_two_le _ (split_commas_two_le s hc)]
  · intro hlk hc
    have hlk' : lookupSql
        (params.map (fun kv => (kv.1, transformParam kv.2))) k =
          some (transformParam (.str s)) := by
      rw [lookupSql_map_transform, hlk]
      rfl
    simp only [configure_sql, hfs]
    rw [formatChunks_three pre post k _ _ hlk']
    have ht : transformParam (.str s) = .str s := by
      simp [transformParam, hc]
    rw [ht]
    rfl
  · intro hlk
    have hlk' : lookupSql
        (params.map (fun kv => (kv.1, transformParam kv.2))) k =
          some (transformParam (.int n)) := by
      rw [lookupSql_map_transform, hlk]
      rfl
    simp only [configure_sql, hfs]
    rw [formatChunks_three pre post k _ _ hlk']
    rfl

/-- Witness for C6 at the IN-clause template, the comma-separated value
"a,b,c" and the scalar 42. -/
theorem configure_sql_substitution_witness :
    configure_sql fsC6 "sql/in_clause.sql" [("ids", .str "a,b,c")] =
      .ok ("SELECT * FROM t WHERE x IN " ++ ("(" ++ String.intercalate ", "
        ((split_commas "a,b,c").map (fun a => "'" ++ a ++ "'")) ++ ")")
        ++ " AND y = 1") ∧
    configure_sql fsC6 "sql/limit.sql" [("rows", .int 42)] =
      .ok ("LIMIT " ++ toString (42 : Int) ++ ";") :=
  ⟨(configure_sql_substitution fsC6 "sql/in_clause.sql"
      "SELECT * FROM t WHERE x IN " " AND y = 1" "ids" "a,b,c"
      [("ids", .str "a,b,c")] 42 rfl).1 rfl (by rfl),
   (configure_sql_substitution fsC6 "sql/limit.sql"
      "LIMIT " ";" "rows" "a,b,c"
      [("rows", .int 42)] 42 rfl).2.2.1 rfl⟩

/-- Claim C8: `create_dataset_if_not_exists` fetches the dataset by its
fully-qualified id `project_id.dataset_id`; it creates the dataset with
the given location exactly when the fetch signals not-found; any other
fetch failure propagates unchanged with no creation; a dataset already
present is left as is; and calling again after a creating call is a no-op
leaving exactly one dataset with the fully-qualified id. -/
theorem create_dataset_if_not_exists_spec
    (w : BqState) (project_id dataset_id dataset_location : String)
    (hnoerr : w.fetch_failures (project_id ++ "." ++ dataset_id) = none)
    (habsent : w.datasets.find?
      (fun d => decide (d.id = project_id ++ "." ++ dataset_id)) = none) :
    create_dataset_if_not_exists w project_id dataset_id dataset_location =
      .ok { w with datasets := w.datasets ++
        [⟨project_id ++ "." ++ dataset_id, dataset_location⟩] } ∧
    create_dataset_if_not_exists
        { w with datasets := w.datasets ++
          [⟨project_id ++ "." ++ dataset_id, dataset_location⟩] }
        project_id dataset_id dataset_location =
      .ok { w with datasets := w.datasets ++
        [⟨project_id ++ "." ++ dataset_id, dataset_location⟩] } ∧
    (w.datasets ++
        [(⟨project_id ++ "." ++ dataset_id, dataset_location⟩ : Dataset)]).filter
        (fun d : Dataset => decide (d.id = project_id ++ "." ++ dataset_id)) =
      [(⟨project_id ++ "." ++ dataset_id, dataset_location⟩ : Dataset)] ∧
    (∀ (w' : BqState) (d : Dataset),
      w'.fetch_failures (project_id ++ "." ++ dataset_id) = none →
      w'.datasets.find?
        (fun x => decide (x.id = project_id ++ "." ++ dataset_id)) = some d →
      create_dataset_if_not_exists w' project_id dataset_id dataset_location =
        .ok w') ∧
    (∀ (w' : BqState) (e : String),
      w'.fetch_failures (project_id ++ "." ++ dataset_id) = some e →
      create_dataset_if_not_exists w' project_id dataset_id dataset_location =
        .error e) := by
  have hfilter : w.datasets.filter
      (fun d => decide (d.id = project_id ++ "." ++ dataset_id)) = [] := by
    rw [List.filter_eq_nil_iff]
    intro a ha
    have := List.find?_eq_none.mp habsent a ha
    simpa using this
  refine ⟨?_, ?_, ?_, ?_, ?_⟩
  · simp [create_dataset_if_not_exists, get_dataset, hnoerr, habsent,
      create_dataset]
  · simp [create_dataset_if_not_exists, get_dataset, hnoerr, habsent,
      List.find?_append]
  · simp [List.filter_append, hfilter]
  · intro w' d hno hfound
    simp [create_dataset_if_not_exists, get_dataset, hno, hfound]
  · intro w' e hsome
    simp [create_dataset_if_not_exists, get_dataset, hsome]

/-- Witness for C8 at the empty BigQuery state, project "p", dataset
"merch_intel", location "us". -/
theorem create_dataset_if_not_exists_spec_witness :
    create_dataset_if_not_exists ⟨[], fun _ => none⟩ "p" "merch_intel" "us" =
      .ok { (⟨[], fun _ => none⟩ : BqState) with
        datasets := ([] : List Dataset) ++ [⟨"p" ++ "." ++ "merch_intel", "us"⟩] } :=
  (create_dataset_if_not_exists_spec ⟨[], fun _ => none⟩
    "p" "merch_intel" "us" rfl rfl).1

/-- Claim C9: `execute_queries` resolves and submits its scripts strictly
in list order; when every script of a prefix succeeds and the next script
fails, exactly the prefix and the failing script are attempted, the
failing script's error is re-raised, and no later script is resolved or
submitted; when every script succeeds, all scripts run in list order. -/
theorem execute_queries_abort_on_failure
    (attempt : String → Except String Unit) (pre post : List String)
    (f e : String)
    (hpre : ∀ x ∈ pre, attempt x = .ok ())
    (hf : attempt f = .error e) :
    run_script_sequence attempt (pre ++ f :: post) = (pre ++ [f], some e) ∧
    (∀ l : List String, (∀ x ∈ l, attempt x = .ok ()) →
      run_script_sequence attempt l = (l, none)) ∧
    execute_queries attempt = run_script_sequence attempt sql_files := by
  have part1 : ∀ p : List String, (∀ x ∈ p, attempt x = .ok ()) →
      run_script_sequence attempt (p ++ f :: post) = (p ++ [f], some e) := by
    intro p
    induction p with
    | nil =>
      intro _
      simp [run_script_sequence, hf]
    | cons a t ih =>
      intro hp
      have ha : attempt a = .ok () := hp a (by simp)
      have ht : ∀ x ∈ t, attempt x = .ok () := fun x hx => hp x (by simp [hx])
      simp [run_script_sequence, ha, ih ht]
  have part2 : ∀ l : List String, (∀ x ∈ l, attempt x = .ok ()) →
      run_script_sequence attempt l = (l, none) := by
    intro l
    induction l with
    | nil =>
      intro _
      rfl
    | cons a t ih =>
      intro hl
      have ha : attempt a = .ok () := hl a (by simp)
      have ht : ∀ x ∈ t, attempt x = .ok () := fun x hx => hl x (by simp [hx])
      simp [run_script_sequence, ha, ih ht]
  exact ⟨part1 pre hpre, part2, rfl⟩

/-- Witness for C9 on the fixed script list: `inventory.sql` succeeds,
`best_sellers.sql` fails, and `main_workflow.sql` is never attempted. -/
theorem execute_queries_abort_on_failure_witness :
    run_script_sequence attemptW
        (["sql/inventory.sql"] ++ "sql/best_sellers.sql" :: [MAIN_WORKFLOW_SQL]) =
      (["sql/inventory.sql"] ++ ["sql/best_sellers.sql"], some "boom") ∧
    (∀ l : List String, (∀ x ∈ l, attemptW x = .ok ()) →
      run_script_sequence attemptW l = (l, none)) ∧
    execute_queries attemptW = run_script_sequence attemptW sql_files :=
  execute_queries_abort_on_failure attemptW
    ["sql/inventory.sql"] [MAIN_WORKFLOW_SQL] "sql/best_sellers.sql" "boom"
    (by
      intro x hx
      rw [List.mem_singleton] at hx
      subst hx
      rfl)
    rfl
